import Mathlib

/-!
Verification of the plugin type-erasure and identity-verification layer of
`membrane_video_compositor_plugin`
(`src/native/membrane_video_compositor_common/src/plugins/layout.rs`).

The source defines a typed `Layout` trait (extending `CustomProcessor`), an
object-safe `UntypedLayout` trait, and a blanket implementation
`impl<T: Layout> UntypedLayout for T` that
- on `registry_key`, asserts that the static and dynamic registry keys agree
  and returns the static one;
- on `do_stuff`, downcasts the opaque `&dyn Any` payload to the plugin's
  declared `Arg` type, panicking with a fixed message on failure, and forwards
  to the typed `do_stuff` on success.

We model Rust's `dyn Any` as a tagged value over an arbitrary universe of
runtime type tags with decidable equality, and panics as the `error` side of
`Except`.
-/

namespace VideoCompositor

/-- Modelled from the spec: `PluginRegistryKey` lives in the sibling module
(`super::`) whose source is not included.  Per the spec (section 4.1) it is an
opaque, equality-comparable key constructed from a static description such as
a name known at the call site. -/
structure PluginRegistryKey where
  name : String
deriving DecidableEq, Repr

/-- Modelled from the spec: `WgpuContext` comes from the crate root and its
internal structure is out of scope; it is only an opaque shared
rendering-context handle supplied at construction time. -/
structure WgpuContext where
  id : Nat
deriving DecidableEq, Repr

/-- A type-erased payload, modelling a Rust `&dyn Any`: a runtime type tag
drawn from a universe `Tag` together with a value of the type `interp` assigns
to that tag. -/
structure AnyVal (Tag : Type) (interp : Tag → Type) where
  tag : Tag
  val : interp tag

/-- Modelling Rust's `<dyn Any>::downcast_ref::<A>()`: succeeds exactly when
the payload's dynamic type tag equals the requested tag. -/
def downcast_ref {Tag : Type} [DecidableEq Tag] {interp : Tag → Type}
    (a : AnyVal Tag interp) (t : Tag) : Option (interp t) :=
  if h : a.tag = t then some (h ▸ a.val) else none

/-- Modelled from the spec: the `CustomProcessor` trait lives in the sibling
module (`super::`) whose source is not included.  Per the spec (section 4.2)
it associates each plugin type with one argument shape (`Arg`, here a runtime
type tag) and exposes a static identity accessor (`registry_key`, resolvable
from the type alone) and a dynamic one (`registry_key_dyn`, resolvable from a
live instance, which the contract permits to be overridden). -/
structure CustomProcessor (Tag : Type) (Self : Type) where
  Arg : Tag
  registry_key : PluginRegistryKey
  registry_key_dyn : Self → PluginRegistryKey

/-- The typed `Layout` trait from the source: `do_stuff` applies the layout to
a strongly-typed argument, and `new` constructs an instance from the shared
rendering-context handle.  The dictionary is bundled with its carrier types so
a value of this structure stands for one Rust impl of the trait. -/
structure Layout (Tag : Type) (interp : Tag → Type) (Ctx Self Effect : Type)
    extends CustomProcessor Tag Self where
  do_stuff : Self → interp Arg → Effect
  new : Ctx → Self

/-- A Rust panic, as observed by the process: either a failed `assert_eq!`
carrying the two compared registry keys, or an explicit `panic!` carrying its
formatted message. -/
inductive Panic where
  | assertFailed (left right : PluginRegistryKey)
  | explicit (message : String)
deriving DecidableEq, Repr

/-- The value of `module_path!()` at the panic site in the source. -/
def module_path : String := "membrane_video_compositor_common::plugins::layout"

/-- The formatted message of the `panic!` in the erased `do_stuff`. -/
def panicMessage : String :=
  "in " ++ module_path ++
    ", expected a successful cast to user-defined Arg type. Something went seriously wrong here."

/-- The object-safe `UntypedLayout` trait from the source, with each method's
possible panic made explicit in `Except`. -/
structure UntypedLayout (Tag : Type) (interp : Tag → Type) (Self Effect : Type) where
  registry_key : Self → Except Panic PluginRegistryKey
  do_stuff : Self → AnyVal Tag interp → Except Panic Effect

/-- The blanket implementation `impl<T: Layout> UntypedLayout for T` from the
source: `registry_key` asserts that the static key equals the dynamic one and
returns the static key; `do_stuff` downcasts the opaque payload to the
declared `Arg` tag, forwarding to the typed `do_stuff` on success and
panicking with the fixed message on failure. -/
def UntypedLayout.ofLayout {Tag : Type} [DecidableEq Tag] {interp : Tag → Type}
    {Ctx Self Effect : Type} (L : Layout Tag interp Ctx Self Effect) :
    UntypedLayout Tag interp Self Effect where
  registry_key self :=
    if L.registry_key = L.registry_key_dyn self then
      .ok L.registry_key
    else
      .error (.assertFailed L.registry_key (L.registry_key_dyn self))
  do_stuff self arg :=
    match downcast_ref arg L.Arg with
    | some a => .ok (L.do_stuff self a)
    | none => .error (.explicit panicMessage)

/-- A small universe of runtime type tags for concrete examples: a pair of
integers (a non-trivial argument shape, as in the spec's `Grid` scenario), a
lone scalar of a different type, and a plain natural number. -/
inductive RustTy where
  | natPair
  | scalar
  | nat
deriving DecidableEq, Repr

/-- Interpretation of the example tags as Lean types. -/
def RustTy.interp : RustTy → Type
  | .natPair => Nat × Nat
  | .scalar => Int
  | .nat => Nat

/-- State of the concrete example plugin: it remembers its context. -/
structure GridState where
  ctx : WgpuContext
deriving DecidableEq, Repr

/-- A concrete plugin in the spirit of the spec's `Grid` scenario: argument
shape is a numeric pair, identity accessors agree, the observable effect of
`do_stuff` is the argument it received. -/
def gridLayout : Layout RustTy RustTy.interp WgpuContext GridState (Nat × Nat) where
  Arg := .natPair
  registry_key := ⟨"grid_layout"⟩
  registry_key_dyn := fun _ => ⟨"grid_layout"⟩
  do_stuff := fun _ a => a
  new := fun c => ⟨c⟩

/-- A deliberately inconsistent plugin: its dynamic identity accessor is
overridden to disagree with the static one. -/
def rogueLayout : Layout RustTy RustTy.interp WgpuContext GridState (Nat × Nat) where
  Arg := .natPair
  registry_key := ⟨"rogue"⟩
  registry_key_dyn := fun _ => ⟨"impostor"⟩
  do_stuff := fun _ a => a
  new := fun c => ⟨c⟩

/-- The two fatal failure kinds of the spec's error-handling design
(section 7): IdentityMismatch and ArgumentTypeMismatch. -/
inductive SpecFailure where
  | identityMismatch
  | argumentTypeMismatch
deriving DecidableEq, Repr

/-- Which spec-level failure kind a concrete panic of the adapter is: the
failed identity assertion is an IdentityMismatch, the explicit downcast panic
is an ArgumentTypeMismatch. -/
def Panic.kind : Panic → SpecFailure
  | .assertFailed _ _ => .identityMismatch
  | .explicit _ => .argumentTypeMismatch

/-- Observable outcome of an erased call at the spec's level of detail: the
returned value, or the kind of fatal failure. -/
def observe {α : Type} : Except Panic α → Except SpecFailure α
  | .ok a => .ok a
  | .error p => .error p.kind

/-- Modelled from the spec, section 4.4 `identity`: return a value equal to
both the static and the dynamic identity of the underlying concrete type; if
they disagree, fail fatally with IdentityMismatch. -/
def specIdentity {Tag : Type} {interp : Tag → Type} {Ctx Self Effect : Type}
    (L : Layout Tag interp Ctx Self Effect) (self : Self) :
    Except SpecFailure PluginRegistryKey :=
  if L.registry_key = L.registry_key_dyn self then
    .ok L.registry_key
  else
    .error .identityMismatch

/-- Modelled from the spec, section 4.4 `apply`: attempt to recover a
reference of the plugin's declared argument shape from the type-erased
payload; on success forward unchanged to the typed apply; on failure fail
fatally with ArgumentTypeMismatch. -/
def specApply {Tag : Type} [DecidableEq Tag] {interp : Tag → Type}
    {Ctx Self Effect : Type} (L : Layout Tag interp Ctx Self Effect)
    (self : Self) (a : AnyVal Tag interp) : Except SpecFailure Effect :=
  match downcast_ref a L.Arg with
  | some v => .ok (L.do_stuff self v)
  | none => .error .argumentTypeMismatch

/-- Whether `needle` begins the list `hay`. -/
def beginsWith {α : Type} [DecidableEq α] : List α → List α → Bool
  | _, [] => true
  | [], _ :: _ => false
  | h :: hs, n :: ns => decide (h = n) && beginsWith hs ns

/-- Whether `needle` occurs contiguously somewhere in `hay`. -/
def containsSeq {α : Type} [DecidableEq α] (needle : List α) : List α → Bool
  | [] => needle.isEmpty
  | h :: hs => beginsWith (h :: hs) needle || containsSeq needle hs

/-- Whether the string `needle` occurs as a contiguous substring of `hay`. -/
def strContainsSub (hay needle : String) : Bool :=
  containsSeq needle.toList hay.toList

/-- Characterization of the erased `do_stuff` of the blanket implementation:
on a payload tagged `t` it succeeds with the forwarded typed result exactly
when `t` is the declared `Arg` tag, and otherwise panics with the fixed
message. -/
theorem ofLayout_do_stuff_eq {Tag : Type} [DecidableEq Tag] {interp : Tag → Type}
    {Ctx Self Effect : Type} (L : Layout Tag interp Ctx Self Effect)
    (self : Self) (t : Tag) (v : interp t) :
    (UntypedLayout.ofLayout L).do_stuff self ⟨t, v⟩ =
      if h : t = L.Arg then .ok (L.do_stuff self (h ▸ v))
      else .error (.explicit panicMessage) := by
  by_cases h : t = L.Arg
  · subst h
    simp [UntypedLayout.ofLayout, downcast_ref]
  · simp [UntypedLayout.ofLayout, downcast_ref, h]

/-- Characterization of the erased `registry_key` of the blanket
implementation: it returns the static key when the static and dynamic keys
agree and otherwise fails the assertion. -/
theorem ofLayout_registry_key_eq {Tag : Type} [DecidableEq Tag]
    {interp : Tag → Type} {Ctx Self Effect : Type}
    (L : Layout Tag interp Ctx Self Effect) (self : Self) :
    (UntypedLayout.ofLayout L).registry_key self =
      if L.registry_key = L.registry_key_dyn self then .ok L.registry_key
      else .error (.assertFailed L.registry_key (L.registry_key_dyn self)) := by
  rfl

/-- C1: forwarding equivalence — for every `Layout` implementation, instance,
and argument value of the declared argument shape, calling the erased
`do_stuff` with the value wrapped as an opaque payload yields exactly the
result of calling the typed `do_stuff` directly with the same value; the
argument is forwarded unchanged (transported only along the tag equality). -/
theorem erased_do_stuff_forwards {Tag : Type} [DecidableEq Tag]
    {interp : Tag → Type} {Ctx Self Effect : Type}
    (L : Layout Tag interp Ctx Self Effect) (self : Self)
    (t : Tag) (v : interp t) (h : t = L.Arg) :
    (UntypedLayout.ofLayout L).do_stuff self ⟨t, v⟩ =
      .ok (L.do_stuff self (h ▸ v)) := by
  rw [ofLayout_do_stuff_eq, dif_pos h]

/-- Witness for C1 at the concrete `gridLayout` plugin and the pair (2, 3). -/
theorem erased_do_stuff_forwards_witness :
    (UntypedLayout.ofLayout gridLayout).do_stuff ⟨⟨0⟩⟩ ⟨RustTy.natPair, (2, 3)⟩ =
      .ok (gridLayout.do_stuff ⟨⟨0⟩⟩ (2, 3)) :=
  erased_do_stuff_forwards gridLayout ⟨⟨0⟩⟩ RustTy.natPair (2, 3) rfl

/-- C2: fatal mismatch on wrong type — for every `Layout` implementation,
calling the erased `do_stuff` with a payload whose dynamic type tag differs
from the declared `Arg` tag panics with the ArgumentTypeMismatch message; in
particular it never returns a success value, so the typed `do_stuff` is never
invoked and nothing is silently no-opped or partially applied. -/
theorem erased_do_stuff_mismatch_panics {Tag : Type} [DecidableEq Tag]
    {interp : Tag → Type} {Ctx Self Effect : Type}
    (L : Layout Tag interp Ctx Self Effect) (self : Self)
    (a : AnyVal Tag interp) (h : a.tag ≠ L.Arg) :
    (UntypedLayout.ofLayout L).do_stuff self a = .error (.explicit panicMessage) ∧
      ∀ e : Effect, (UntypedLayout.ofLayout L).do_stuff self a ≠ .ok e := by
  obtain ⟨t, v⟩ := a
  rw [ofLayout_do_stuff_eq, dif_neg h]
  exact ⟨rfl, fun e he => Except.noConfusion he⟩

/-- Witness for C2: `gridLayout` receiving a lone scalar instead of a pair. -/
theorem erased_do_stuff_mismatch_panics_witness :
    (UntypedLayout.ofLayout gridLayout).do_stuff ⟨⟨0⟩⟩ ⟨RustTy.scalar, (1 : Int)⟩ =
        .error (.explicit panicMessage) ∧
      ∀ e : Nat × Nat,
        (UntypedLayout.ofLayout gridLayout).do_stuff ⟨⟨0⟩⟩ ⟨RustTy.scalar, (1 : Int)⟩ ≠
          .ok e :=
  erased_do_stuff_mismatch_panics gridLayout ⟨⟨0⟩⟩ ⟨RustTy.scalar, (1 : Int)⟩
    (by decide)

/-- C3: identity agreement — whenever the static identity accessor and the
instance's dynamic identity accessor yield equal registry keys, the erased
`registry_key` returns a value equal to both of them. -/
theorem erased_registry_key_agrees {Tag : Type} [DecidableEq Tag]
    {interp : Tag → Type} {Ctx Self Effect : Type}
    (L : Layout Tag interp Ctx Self Effect) (self : Self)
    (h : L.registry_key = L.registry_key_dyn self) :
    (UntypedLayout.ofLayout L).registry_key self = .ok L.registry_key ∧
      (UntypedLayout.ofLayout L).registry_key self = .ok (L.registry_key_dyn self) := by
  rw [ofLayout_registry_key_eq, if_pos h]
  exact ⟨rfl, by rw [h]⟩

/-- Witness for C3 at the concrete `gridLayout` plugin. -/
theorem erased_registry_key_agrees_witness :
    (UntypedLayout.ofLayout gridLayout).registry_key ⟨⟨7⟩⟩ =
        .ok gridLayout.registry_key ∧
      (UntypedLayout.ofLayout gridLayout).registry_key ⟨⟨7⟩⟩ =
        .ok (gridLayout.registry_key_dyn ⟨⟨7⟩⟩) :=
  erased_registry_key_agrees gridLayout ⟨⟨7⟩⟩ rfl

/-- C4: every erased identity query performs the static-vs-dynamic check —
either the two keys agree and the query returns the (consistent) static key,
or they disagree and the query halts with the failed assertion; an
inconsistent value is never returned. -/
theorem erased_registry_key_checks {Tag : Type} [DecidableEq Tag]
    {interp : Tag → Type} {Ctx Self Effect : Type}
    (L : Layout Tag interp Ctx Self Effect) (self : Self) :
    ((UntypedLayout.ofLayout L).registry_key self = .ok L.registry_key ∧
        L.registry_key = L.registry_key_dyn self) ∨
      ((UntypedLayout.ofLayout L).registry_key self =
          .error (.assertFailed L.registry_key (L.registry_key_dyn self)) ∧
        L.registry_key ≠ L.registry_key_dyn self) := by
  rw [ofLayout_registry_key_eq]
  by_cases h : L.registry_key = L.registry_key_dyn self
  · exact Or.inl ⟨by rw [if_pos h], h⟩
  · exact Or.inr ⟨by rw [if_neg h], h⟩

/-- C5 (counterexample): at the concrete `gridLayout` plugin and a mis-typed
payload, the erased `do_stuff` panics with a diagnostic that does NOT contain
the plugin's registry key, contradicting the claim that the diagnostic
includes the plugin's identity. -/
theorem erased_panic_message_lacks_identity :
    (UntypedLayout.ofLayout gridLayout).do_stuff ⟨⟨0⟩⟩ ⟨RustTy.scalar, (2 : Int)⟩ =
        .error (.explicit panicMessage) ∧
      strContainsSub panicMessage gridLayout.registry_key.name = false := by
  exact ⟨rfl, by rfl⟩

/-- C5 (amended): on argument-type mismatch the diagnostic produced by the
erased `do_stuff` names the erasure adapter's module path and describes the
failed cast, but it does not include the plugin's registry key. -/
theorem erased_panic_message_names_module {Tag : Type} [DecidableEq Tag]
    {interp : Tag → Type} {Ctx Self Effect : Type}
    (L : Layout Tag interp Ctx Self Effect) (self : Self)
    (a : AnyVal Tag interp) (h : a.tag ≠ L.Arg) :
    (UntypedLayout.ofLayout L).do_stuff self a = .error (.explicit panicMessage) ∧
      strContainsSub panicMessage module_path = true ∧
      strContainsSub panicMessage "expected a successful cast" = true := by
  obtain ⟨t, v⟩ := a
  rw [ofLayout_do_stuff_eq, dif_neg h]
  exact ⟨rfl, by rfl, by rfl⟩

/-- Witness for the amended C5: `gridLayout` receiving a lone scalar. -/
theorem erased_panic_message_names_module_witness :
    (UntypedLayout.ofLayout gridLayout).do_stuff ⟨⟨0⟩⟩ ⟨RustTy.scalar, (3 : Int)⟩ =
        .error (.explicit panicMessage) ∧
      strContainsSub panicMessage module_path = true ∧
      strContainsSub panicMessage "expected a successful cast" = true :=
  erased_panic_message_names_module gridLayout ⟨⟨0⟩⟩ ⟨RustTy.scalar, (3 : Int)⟩
    (by decide)

/-- C6: the blanket implementation mechanically derives, for every `Layout`
implementation, an erased implementation whose observable behavior is exactly
the behavior of spec section 4.4: identity reporting with the consistency
check, and downcast-then-forward apply. -/
theorem ofLayout_refines_spec {Tag : Type} [DecidableEq Tag]
    {interp : Tag → Type} {Ctx Self Effect : Type}
    (L : Layout Tag interp Ctx Self Effect) :
    (∀ self : Self,
        observe ((UntypedLayout.ofLayout L).registry_key self) = specIdentity L self) ∧
      ∀ (self : Self) (a : AnyVal Tag interp),
        observe ((UntypedLayout.ofLayout L).do_stuff self a) = specApply L self a := by
  constructor
  · intro self
    rw [ofLayout_registry_key_eq]
    by_cases h : L.registry_key = L.registry_key_dyn self <;>
      simp [h, specIdentity, observe, Panic.kind]
  · intro self a
    obtain ⟨t, v⟩ := a
    rw [ofLayout_do_stuff_eq]
    by_cases h : t = L.Arg
    · subst h
      simp [specApply, observe, downcast_ref]
    · simp [h, specApply, observe, Panic.kind, downcast_ref]

/-- C7: the erased `do_stuff` never performs the identity-agreement check —
even when the static and dynamic identities disagree, a correctly-tagged
payload is forwarded and succeeds; and the erased `do_stuff` panics exactly
on the payloads whose tag fails the downcast. -/
theorem erased_do_stuff_ignores_identity {Tag : Type} [DecidableEq Tag]
    {interp : Tag → Type} {Ctx Self Effect : Type}
    (L : Layout Tag interp Ctx Self Effect) (self : Self)
    (v : interp L.Arg) (h : L.registry_key ≠ L.registry_key_dyn self) :
    (UntypedLayout.ofLayout L).do_stuff self ⟨L.Arg, v⟩ = .ok (L.do_stuff self v) ∧
      ∀ a : AnyVal Tag interp,
        ((∃ p, (UntypedLayout.ofLayout L).do_stuff self a = .error p) ↔ a.tag ≠ L.Arg) := by
  constructor
  · rw [ofLayout_do_stuff_eq, dif_pos rfl]
  · intro a
    obtain ⟨t, w⟩ := a
    rw [ofLayout_do_stuff_eq]
    by_cases ht : t = L.Arg <;> simp [ht]

/-- Witness for C7: the `rogueLayout` plugin, whose identities disagree,
still applies a correctly-typed argument through the erased interface. -/
theorem erased_do_stuff_ignores_identity_witness :
    (UntypedLayout.ofLayout rogueLayout).do_stuff ⟨⟨0⟩⟩ ⟨RustTy.natPair, (5, 6)⟩ =
      .ok (rogueLayout.do_stuff ⟨⟨0⟩⟩ (5, 6)) :=
  (erased_do_stuff_ignores_identity rogueLayout ⟨⟨0⟩⟩ (5, 6) (by decide)).1

/-- C8: under the precondition that the payload's dynamic type tag equals the
declared `Arg` tag, the downcast inside the erased `do_stuff` succeeds, so the
panic branch is unreachable and the call returns the forwarded result. -/
theorem downcast_in_do_stuff_succeeds {Tag : Type} [DecidableEq Tag]
    {interp : Tag → Type} {Ctx Self Effect : Type}
    (L : Layout Tag interp Ctx Self Effect) (self : Self)
    (t : Tag) (v : interp t) (h : t = L.Arg) :
    downcast_ref (⟨t, v⟩ : AnyVal Tag interp) L.Arg = some (h ▸ v) ∧
      (UntypedLayout.ofLayout L).do_stuff self ⟨t, v⟩ ≠
        .error (.explicit panicMessage) := by
  refine ⟨dif_pos h, ?_⟩
  rw [ofLayout_do_stuff_eq, dif_pos h]
  exact fun he => Except.noConfusion he

/-- Witness for C8 at the concrete `gridLayout` plugin and the pair (4, 5). -/
theorem downcast_in_do_stuff_succeeds_witness :
    downcast_ref (⟨RustTy.natPair, (4, 5)⟩ : AnyVal RustTy RustTy.interp)
        gridLayout.Arg = some (4, 5) ∧
      (UntypedLayout.ofLayout gridLayout).do_stuff ⟨⟨1⟩⟩ ⟨RustTy.natPair, (4, 5)⟩ ≠
        .error (.explicit panicMessage) :=
  downcast_in_do_stuff_succeeds gridLayout ⟨⟨1⟩⟩ RustTy.natPair (4, 5) rfl

/-- C10: construction of a typed plugin instance through `Layout.new` is a
total operation — for every context handle it yields an instance, with no
error or fallible result at this interface (mirroring the Rust signature,
which returns `Self` rather than a `Result` or `Option`). -/
theorem layout_new_total {Tag : Type} {interp : Tag → Type}
    {Ctx Self Effect : Type} (L : Layout Tag interp Ctx Self Effect)
    (ctx : Ctx) : ∃ s : Self, L.new ctx = s :=
  ⟨L.new ctx, rfl⟩

end VideoCompositor
